import Mathlib

/-!
# RevSpace fan controller (`ventireg.c`): a shallow embedding

The globals of `ventireg.c` become the fields of one record, `State`; every
interrupt handler and every function of the file becomes a function on that
record.  Bytes (`unsigned char`) are natural numbers below 256 and the two
timing counters (`unsigned int`, 16 bits on the AVR) are natural numbers below
65536; every increment and every conversion is written with its explicit
modulus.  The busy wait `while (temp16 != clk_slo);` is a loop with fuel in
which one slow tick (`ISR(TIMER1_COMPA_vect)`) fires between two polls.

A run of conditional assignments to one variable, `if (c) x = v;`, is written
on a local copy of that variable (`let x := if c then v else x`), and the
final value is stored in the record at the end of the run.
-/

set_option linter.unusedVariables false

namespace Ventireg

/-! ## Constants of the source -/

def ss_a : Nat := 0b01111011
def ss_e : Nat := 0b01110110
def ss_o : Nat := 0b00111111
def ss_r : Nat := 0b01000010
def ss_dp : Nat := 0b10000000
def ss_all : Nat := 0b11111111

def AUTO : Nat := 0
def MANUAL : Nat := 1
def SETUP : Nat := 100
def MIN_S : Nat := 110
def STU_S : Nat := 120
def STU_D : Nat := 130
def HELP : Nat := 255

def MIN_S_ADD : Nat := 0
def STU_S_ADD : Nat := 1
def STU_D_ADD : Nat := 2

/-! ## The state: the globals, the fan PWM register and the EEPROM -/

/-- The globals of `ventireg.c` that the serial handler, the main loop, the
ramp controller, the display routine and the fault handler read or write,
the PWM compare register `OCR2B` and the EEPROM contents. -/
structure State where
  dat_7 : Nat
  disp1 : Nat
  disp2 : Nat
  disp3 : Nat
  dispt : Nat
  mode : Nat
  rec_dat : Nat
  dat_ava : Nat
  Min_Spd : Nat
  Stu_Spd : Nat
  Stu_Dur : Nat
  clk_slo : Nat
  temp16 : Nat
  OCR2B : Nat
  eeprom : Nat → Nat

/-- Every byte-wide field holds a byte and both 16-bit fields a 16-bit value. -/
def State.wf (s : State) : Prop :=
  s.dat_7 < 256 ∧ s.disp1 < 256 ∧ s.disp2 < 256 ∧ s.disp3 < 256 ∧ s.dispt < 256 ∧
  s.mode < 256 ∧ s.rec_dat < 256 ∧ s.dat_ava < 256 ∧
  s.Min_Spd < 256 ∧ s.Stu_Spd < 256 ∧ s.Stu_Dur < 256 ∧
  s.clk_slo < 65536 ∧ s.temp16 < 65536 ∧ s.OCR2B < 256

/-- The logical fan duty: the PWM is inverted, so the duty is `255 - OCR2B`. -/
def State.duty (s : State) : Nat := 255 - s.OCR2B

/-! ## C arithmetic on `unsigned char` operands -/

/-- The value of the C expression `~(x)` for an `unsigned char` operand `x`.
The integer promotions of C apply to the operand of `~`: `x` becomes an `int`
(16 bits with avr-gcc) before it is complemented, and the result is the
negative `int` `-x - 1`, not the byte `255 - x`.  Only a conversion back to
`unsigned char` (`to_u8`) gives `255 - x`. -/
def cnot (x : Nat) : Int := -(x : Int) - 1

/-- Conversion of an `int` to `unsigned char` (assignment to an 8-bit
register): reduction modulo 256. -/
def to_u8 (i : Int) : Nat := (i % 256).toNat

/-! ## Interrupt handlers -/

/-- The slow tick, `ISR(TIMER1_COMPA_vect)`: `clk_slo++` on a 16-bit counter. -/
def TIMER1_COMPA_vect (s : State) : State :=
  { s with clk_slo := (s.clk_slo + 1) % 65536 }

/-- The serial-receive handler, `ISR(USART_RX_vect)`, for the received byte
`data` (the value read from `UDR0`). -/
def USART_RX_vect (data : Nat) (s : State) : State :=
  if s.mode = MIN_S ∨ s.mode = STU_S ∨ s.mode = STU_D ∨ s.mode = MANUAL then
    -- rec_dat = data; dat_ava++; return;
    { s with rec_dat := data, dat_ava := (s.dat_ava + 1) % 256 }
  else
    let mode := s.mode
    -- 'a' = 97, 'm' = 109, 's' = 115, 'h' = 104
    let mode := if data = 97 then AUTO else mode
    let mode := if data = 109 then MANUAL else mode
    let mode := if data = 115 then SETUP else mode
    let mode := if data = 104 then HELP else mode
    let mode :=
      if mode = SETUP then
        -- '1' = 49, '2' = 50, '3' = 51
        if data = 49 then MIN_S
        else if data = 50 then STU_S
        else if data = 51 then STU_D
        else AUTO
      else mode
    { s with mode := mode }

/-- One pass through the body of the `while(1)` loop of `ISR(BADISR_vect)`. -/
def BADISR_loop (s : State) : State :=
  let error := (s.clk_slo % 32) / 2
  let dat_7 := s.dat_7
  let dat_7 := if error = 0 then ss_e else dat_7
  let dat_7 := if error = 2 then ss_r else dat_7
  let dat_7 := if error = 4 then ss_r else dat_7
  let dat_7 := if error = 6 then ss_o else dat_7
  let dat_7 := if error = 8 then ss_r else dat_7
  let dat_7 := if error > 8 then ss_dp else dat_7
  let dat_7 := if error % 2 = 1 then 0 else dat_7
  { s with dat_7 := dat_7 }

/-- Entry of `ISR(BADISR_vect)`: the statement `OCR2B = 0;` before the loop. -/
def BADISR_entry (s : State) : State :=
  { s with OCR2B := 0 }

/-! ## Functions -/

/-- The busy wait `while (temp16 != clk_slo);`.  Between two polls of the
condition one slow tick fires.  The result is the state at loop exit together
with the value of `OCR2B` that the fan received at each of those ticks; with
too little fuel the loop has not ended and the result is `none`. -/
def wait_clk : Nat → State → Option (State × List Nat)
  | 0, s => if s.temp16 ≠ s.clk_slo then none else some (s, [])
  | fuel + 1, s =>
    if s.temp16 ≠ s.clk_slo then
      match wait_clk fuel (TIMER1_COMPA_vect s) with
      | some (s1, tr) => some (s1, s.OCR2B :: tr)
      | none => none
    else some (s, [])

/-- The ramp controller `chg_spd(newspeed)`.  The local `fan` is written to
`OCR2B` by the last statement only.  The result carries the fan register
values seen at the ticks of the wait (empty when there was no wait). -/
def chg_spd (fuel : Nat) (newspeed : Nat) (s : State) : Option (State × List Nat) :=
  if cnot s.OCR2B < (s.Min_Spd : Int) ∧ newspeed < s.Stu_Spd then
    if newspeed < s.Min_Spd then
      let fan := 0
      some ({ s with OCR2B := to_u8 (cnot fan) }, [])
    else
      let fan := s.Stu_Spd
      let s := { s with temp16 := (s.clk_slo + s.Stu_Dur) % 65536 }
      match wait_clk fuel s with
      | some (s, tr) =>
        let fan := newspeed
        some ({ s with OCR2B := to_u8 (cnot fan) }, tr)
      | none => none
  else
    let fan := newspeed
    some ({ s with OCR2B := to_u8 (cnot fan) }, [])

/-- The direct EEPROM byte write `eeprom_wb_direct(address, data)`; the wait
for the previous write is on a hardware flag that clears by itself. -/
def eeprom_wb_direct (address : Nat) (data : Nat) (s : State) : State :=
  { s with eeprom := Function.update s.eeprom address data }

/-- The display routine `display_upd()`. -/
def display_upd (s : State) : State :=
  let dispt := (s.clk_slo % 16) / 4
  let disp1 := s.disp1
  let disp2 := if s.disp2 = 0 then disp1 else s.disp2
  let disp3 := if s.disp3 = 0 then disp2 else s.disp3
  let dat_7 := s.dat_7
  let dat_7 := if dispt = 0 then 0 else dat_7
  let dat_7 := if dispt = 1 then disp1 else dat_7
  let dat_7 := if dispt = 2 then disp2 else dat_7
  let dat_7 := if dispt = 3 then disp3 else dat_7
  { s with dispt := dispt, disp2 := disp2, disp3 := disp3, dat_7 := dat_7 }

/-- The part of `io_init()` that touches the modelled state: the fan PWM is
switched off and the three configuration bytes are read from the EEPROM. -/
def io_init (s : State) : State :=
  let s := { s with OCR2B := 255 }
  let s := { s with Min_Spd := s.eeprom MIN_S_ADD }
  let s := { s with Stu_Spd := s.eeprom STU_S_ADD }
  { s with Stu_Dur := s.eeprom STU_D_ADD }

/-- The part of `main()` before the `while(1)` loop. -/
def main_init (fuel : Nat) (s : State) : Option State :=
  let s := io_init s
  match chg_spd fuel 255 s with
  | none => none
  | some (s, _) =>
    let s := { s with dat_7 := ss_all }
    let s := { s with disp1 := ss_a }
    let s := { s with disp2 := 0 }
    let s := { s with disp3 := 0 }
    let s := { s with temp16 := (s.clk_slo + 20) % 65536 }
    match wait_clk fuel s with
    | none => none
    | some (s, _) =>
      let s := { s with dat_7 := 0 }
      some { s with mode := AUTO }

/-- One pass through the body of the `while(1)` loop of `main()`. -/
def main_loop (fuel : Nat) (s : State) : Option State :=
  let r : Option State :=
    if s.dat_ava = 1 then
      let r1 : Option State :=
        if s.mode = MIN_S then some (eeprom_wb_direct MIN_S_ADD s.rec_dat s)
        else if s.mode = STU_S then some (eeprom_wb_direct STU_S_ADD s.rec_dat s)
        else if s.mode = STU_D then some (eeprom_wb_direct STU_D_ADD s.rec_dat s)
        else if s.mode = MANUAL then (chg_spd fuel s.rec_dat s).map Prod.fst
        else some { s with dat_ava := (s.dat_ava + 1) % 256 }
      -- if (mode != MANUAL) mode = AUTO;
      r1.map (fun s => { s with mode := if s.mode ≠ MANUAL then AUTO else s.mode })
    else some s
  r.map (fun s =>
    -- if (dat_ava > 1) { mode = AUTO; dat_ava = 0; }
    let s := { s with mode := if s.dat_ava > 1 then AUTO else s.mode,
                      dat_ava := if s.dat_ava > 1 then 0 else s.dat_ava }
    display_upd s)

/-! ## Scripts: whole handler calls and whole loop iterations -/

/-- What can happen at the granularity of whole handler calls and whole
main-loop iterations. -/
inductive Event where
  | rx (data : Nat)
  | loop
  | tick

/-- One event applied to a state. -/
def Event.apply (fuel : Nat) : Event → State → Option State
  | .rx data, s => some (USART_RX_vect data s)
  | .loop, s => main_loop fuel s
  | .tick, s => some (TIMER1_COMPA_vect s)

/-- A script of events, applied from left to right. -/
def run (fuel : Nat) : List Event → State → Option State
  | [], s => some s
  | e :: es, s =>
    match e.apply fuel s with
    | some s1 => run fuel es s1
    | none => none

/-- The state at reset: every global is zero (C static initialisation), the
PWM register has its reset value 0, and the EEPROM holds `ee`. -/
def reset_state (ee : Nat → Nat) : State :=
  { dat_7 := 0, disp1 := 0, disp2 := 0, disp3 := 0, dispt := 0, mode := 0,
    rec_dat := 0, dat_ava := 0, Min_Spd := 0, Stu_Spd := 0, Stu_Dur := 0,
    clk_slo := 0, temp16 := 0, OCR2B := 0, eeprom := ee }

/-- An EEPROM image with the three configuration bytes `a`, `b`, `c` at
`MIN_S_ADD`, `STU_S_ADD`, `STU_D_ADD` and erased cells (255) elsewhere. -/
def eeprom_image (a b c : Nat) : Nat → Nat :=
  fun n => if n = MIN_S_ADD then a else if n = STU_S_ADD then b
    else if n = STU_D_ADD then c else 255

/-- The summary of a state that the claims look at: mode, pending byte,
overflow counter, the in-memory configuration, the persisted configuration
and the logical fan duty. -/
def State.view (s : State) : List Nat :=
  [s.mode, s.rec_dat, s.dat_ava, s.Min_Spd, s.Stu_Spd, s.Stu_Dur,
   s.eeprom MIN_S_ADD, s.eeprom STU_S_ADD, s.eeprom STU_D_ADD, s.duty]

/-- The boot state for the configuration bytes `a`, `b`, `c`: `main()` run from
reset up to the first pass of its `while(1)` loop. -/
def boot_state (a b c : Nat) : Option State :=
  main_init 20 (reset_state (eeprom_image a b c))

/-- A script run from the boot state for the configuration 20, 100, 5,
summarised by `State.view`. -/
def boot_run (es : List Event) : Option (List Nat) :=
  ((boot_state 20 100 5).bind (run 10 es)).map State.view

/-- A stopped fan with the configuration bytes `a`, `b`, `c` loaded: the state
that `io_init()` leaves (`OCR2B = 255`). -/
def stopped_fan (a b c : Nat) : State :=
  io_init (reset_state (eeprom_image a b c))

/-- A fan running at full speed (`OCR2B = 0`) with the configuration bytes
`a`, `b`, `c` loaded. -/
def running_fan (a b c : Nat) : State :=
  { stopped_fan a b c with OCR2B := 0 }

/-- What `chg_spd` shows to the outside: the final logical duty and the fan
register values at the ticks of its wait. -/
def chg_spd_obs (fuel newspeed : Nat) (s : State) : Option (Nat × List Nat) :=
  (chg_spd fuel newspeed s).map (fun p => (p.1.duty, p.2))

/-- The in-memory and the persisted configuration of `t` are those of `s`. -/
def same_config (s t : State) : Prop :=
  t.Min_Spd = s.Min_Spd ∧ t.Stu_Spd = s.Stu_Spd ∧ t.Stu_Dur = s.Stu_Dur ∧
  t.eeprom = s.eeprom

/-- Successive calls of `display_upd()`, one at each of the slow-tick values
`cs`; nothing else writes the display slots in between. -/
def display_run (cs : List Nat) (s : State) : State :=
  cs.foldl (fun st c => display_upd { st with clk_slo := c }) s

/-- Where control is: in the foreground program (`main`) or inside the fault
handler `ISR(BADISR_vect)`. -/
inductive Loc where
  | main
  | fault
  deriving DecidableEq

/-- The machine: the control location and the state. -/
structure Machine where
  loc : Loc
  st : State

/-- The fault handler is entered: `OCR2B = 0;` and control is in its loop. -/
def BADISR_vect (s : State) : Machine :=
  { loc := Loc.fault, st := BADISR_entry s }

/-- The steps of the machine.  A serial byte or a slow tick is handled and
control returns to where it was; the foreground runs one main-loop iteration;
the fault handler is entered from the foreground; inside the fault handler the
only program step is one more pass through its `while(1)` loop, which has no
`break` and no `return`. -/
inductive Step : Machine → Machine → Prop where
  | rx (l : Loc) (data : Nat) (s : State) :
      Step { loc := l, st := s } { loc := l, st := USART_RX_vect data s }
  | tick (l : Loc) (s : State) :
      Step { loc := l, st := s } { loc := l, st := TIMER1_COMPA_vect s }
  | loop (fuel : Nat) (s t : State) (h : main_loop fuel s = some t) :
      Step { loc := Loc.main, st := s } { loc := Loc.main, st := t }
  | badisr (s : State) :
      Step { loc := Loc.main, st := s } (BADISR_vect s)
  | fault_loop (s : State) :
      Step { loc := Loc.fault, st := s } { loc := Loc.fault, st := BADISR_loop s }

/-- A state in Manual mode whose counter `dat_ava` is at 255: 255 bytes have
arrived since the main loop last looked. -/
def manual_full : State :=
  { reset_state (eeprom_image 20 100 5) with mode := MANUAL, dat_ava := 255 }

instance (s : State) : Decidable s.wf := by
  unfold State.wf
  infer_instance

/-! ## The analog sampling handler -/

/-- The registers and globals of the sample-ready handler: the channel
selection register `ADMUX`, the control register `ADCSRA` and the two stored
samples `pot_man` and `pot_set`. -/
structure Adc where
  ADMUX : Nat
  ADCSRA : Nat
  pot_man : Nat
  pot_set : Nat
  deriving DecidableEq

/-- The sample-ready handler `ISR(ADC_vect)` for the conversion result `data`
(the value read from `ADCH`).  The two `if` statements follow one another in
the source; the second one tests `ADMUX` as the first one left it. -/
def ADC_vect (data : Nat) (a : Adc) : Adc :=
  -- if ((ADMUX % 8) == 0) { pot_man = data; ADMUX++; }
  let a := if a.ADMUX % 8 = 0 then
      { a with pot_man := data, ADMUX := (a.ADMUX + 1) % 256 } else a
  -- if ((ADMUX % 8) == 1) { pot_set = data; ADMUX &= 0b11111000; }
  let a := if a.ADMUX % 8 = 1 then
      { a with pot_set := data, ADMUX := a.ADMUX &&& 0b11111000 } else a
  -- ADCSRA |= (1<<ADSC);
  { a with ADCSRA := a.ADCSRA ||| 64 }

/-- The analog registers as `io_init()` leaves them (`ADMUX = 0b01100000`,
channel 0; `ADCSRA = 0b10101111` with the start bit set by the last
statement), with the stored samples `m` and `p`. -/
def adc_init (m p : Nat) : Adc :=
  { ADMUX := 0b01100000, ADCSRA := 0b10101111 ||| 64, pot_man := m, pot_set := p }

/-- A state in mode SETUP with nothing pending. -/
def setup_state : State :=
  { reset_state (eeprom_image 20 100 5) with mode := SETUP }

/-- A state with one pending byte `v` in mode `m`: configuration 20, 100, 5
loaded, fan running at full speed, slow tick at 0. -/
def pending_state (m v : Nat) : State :=
  { running_fan 20 100 5 with mode := m, rec_dat := v, dat_ava := 1 }

/-- The mode is one of those the serial handler can leave behind when it
starts from Auto: Auto, Manual or Help. -/
def reachable_mode (m : Nat) : Prop :=
  m = AUTO ∨ m = MANUAL ∨ m = HELP

/-- The mode is one in which the next received byte is data. -/
def data_mode (m : Nat) : Prop :=
  m = MIN_S ∨ m = STU_S ∨ m = STU_D ∨ m = MANUAL

instance (m : Nat) : Decidable (reachable_mode m) := by
  unfold reachable_mode
  infer_instance

instance (m : Nat) : Decidable (data_mode m) := by
  unfold data_mode
  infer_instance

/-! ## The serial script of the setup command -/

/-- Claim C1, evaluated on the code: from the boot state with the persisted
configuration 20, 100, 5 the bytes `s`, `1`, 30, each followed by one
main-loop iteration, end in mode Auto with `Min_Spd` still 20 and the EEPROM
byte at `MIN_S_ADD` still 20 (nothing pending, fan at full speed): the value
30 reaches neither the in-memory nor the persisted minimum speed. -/
theorem setup_script_keeps_min_speed :
    boot_run [.rx 115, .loop, .rx 49, .loop, .rx 30, .loop]
      = some [AUTO, 0, 0, 20, 100, 5, 20, 100, 5, 255] := by
  decide

/-- Claim C2, evaluated on the code: from the boot state with configuration
20, 100, 5, after `m`, 200 and a second `m` (a loop iteration after each) the
mode is Auto, not Manual, and after the final byte 50 and its loop iteration
the mode is still Auto and the logical fan duty is 200, not 50.  The second
`m` is stored as data on top of the unconsumed 200 (counter 2). -/
theorem manual_script_reverts_to_auto :
    boot_run [.rx 109, .loop, .rx 200, .loop]
      = some [MANUAL, 200, 1, 20, 100, 5, 20, 100, 5, 200] ∧
    boot_run [.rx 109, .loop, .rx 200, .loop, .rx 109]
      = some [MANUAL, 109, 2, 20, 100, 5, 20, 100, 5, 200] ∧
    boot_run [.rx 109, .loop, .rx 200, .loop, .rx 109, .loop]
      = some [AUTO, 109, 0, 20, 100, 5, 20, 100, 5, 200] ∧
    boot_run [.rx 109, .loop, .rx 200, .loop, .rx 109, .loop, .rx 50, .loop]
      = some [AUTO, 109, 0, 20, 100, 5, 20, 100, 5, 200] := by
  decide

/-! ## The ramp controller -/

/-- Claim C3, evaluated on the code: with configuration min 20, startup 100,
duration 5 and a stopped fan (`OCR2B = 255`, duty 0), `chg_spd(50)` waits five
ticks during which the fan register is 255 at every tick (logical duty 0, not
the startup duty 100, whose register value would be 155); afterwards the duty
is 50. -/
theorem ramp_wait_leaves_fan_register :
    (stopped_fan 20 100 5).duty = 0 ∧
    chg_spd_obs 5 50 (stopped_fan 20 100 5) = some (50, [255, 255, 255, 255, 255]) := by
  decide

/-- Claim C4, evaluated on the code: with configuration min 20, startup 100,
duration 5 and a fan running at full speed (`OCR2B = 0`, duty 255),
`chg_spd(10)` leaves the duty 0 (the fan is stopped, not set to 10), and
`chg_spd(50)` waits five ticks before it sets the duty 50. -/
theorem running_fan_takes_ramp_branch :
    (running_fan 20 100 5).duty = 255 ∧
    chg_spd_obs 5 10 (running_fan 20 100 5) = some (0, []) ∧
    chg_spd_obs 5 50 (running_fan 20 100 5) = some (50, [0, 0, 0, 0, 0]) := by
  decide

/-! ## The overflow counter -/

/-- Claim C7, evaluated on the code: in Manual mode with the counter `dat_ava`
at 255 one more received byte wraps the counter to 0, below its value before
the call. -/
theorem overflow_counter_wraps :
    manual_full.dat_ava = 255 ∧ (USART_RX_vect 7 manual_full).dat_ava = 0 := by
  decide

set_option maxRecDepth 100000 in
/-- The counter value 255 is reached, and passed: 256 bytes received in Manual
mode with no main-loop iteration in between bring an empty counter back to 0. -/
theorem overflow_counter_full_cycle :
    ((List.replicate 255 7).foldl (fun s b => USART_RX_vect b s)
      { manual_full with dat_ava := 0 }).dat_ava = 255 ∧
    ((List.replicate 256 7).foldl (fun s b => USART_RX_vect b s)
      { manual_full with dat_ava := 0 }).dat_ava = 0 := by
  decide

/-! ## Command bytes -/

/-- Claim C10, evaluated on the code: in mode Auto and in mode Help the byte
`s` leaves the mode Auto, not SETUP: the handler sets SETUP and then, in the
same call, resets it because `s` is none of `1`, `2`, `3`.  The bytes `a`,
`m`, `h` give Auto, Manual, Help. -/
theorem setup_command_falls_back_to_auto :
    (USART_RX_vect 115 (reset_state (eeprom_image 20 100 5))).mode = AUTO ∧
    (USART_RX_vect 115 { reset_state (eeprom_image 20 100 5) with mode := HELP }).mode = AUTO ∧
    (USART_RX_vect 97 { reset_state (eeprom_image 20 100 5) with mode := HELP }).mode = AUTO ∧
    (USART_RX_vect 109 (reset_state (eeprom_image 20 100 5))).mode = MANUAL ∧
    (USART_RX_vect 104 (reset_state (eeprom_image 20 100 5))).mode = HELP := by
  decide

/-! ## The wait ends, and what the ramp controller leaves -/

/-- An `unsigned char` complemented and stored back in a byte is `255 - x`. -/
theorem to_u8_cnot (x : Nat) (hx : x < 256) : to_u8 (cnot x) = 255 - x := by
  unfold to_u8 cnot
  omega

/-- The first test of `chg_spd`, `~(OCR2B) < Min_Spd`, compares a negative
`int` with a byte and holds in every state. -/
theorem chg_spd_first_test (s : State) : cnot s.OCR2B < (s.Min_Spd : Int) := by
  unfold cnot
  omega

/-- A wait whose target is `d` ticks ahead ends after exactly `d` ticks when
the fuel allows `d` ticks; only `clk_slo` has changed, and the fan register
kept its value at every tick. -/
theorem wait_clk_some (d : Nat) : ∀ (fuel : Nat) (s : State), d ≤ fuel → d < 65536 →
    s.clk_slo < 65536 → s.temp16 = (s.clk_slo + d) % 65536 →
    wait_clk fuel s = some ({ s with clk_slo := s.temp16 }, List.replicate d s.OCR2B) := by
  induction d with
  | zero =>
    intro fuel s _ _ hc ht
    have h0 : s.temp16 = s.clk_slo := by omega
    cases s
    cases fuel <;> simp_all [wait_clk] <;> omega
  | succ d ih =>
    intro fuel s hf hd hc ht
    have hne : s.temp16 ≠ s.clk_slo := by omega
    obtain ⟨f, rfl⟩ : ∃ f, fuel = f + 1 := ⟨fuel - 1, by omega⟩
    have hstep := ih f (TIMER1_COMPA_vect s) (by omega) (by omega)
      (by simp only [TIMER1_COMPA_vect]; omega)
      (by simp only [TIMER1_COMPA_vect]; omega)
    simp only [wait_clk, hne, ne_eq, not_false_eq_true, if_true, hstep]
    simp [TIMER1_COMPA_vect, List.replicate_succ]

/-- The state that `chg_spd` returns, in each of its three branches, for a
well-formed state and enough fuel. -/
theorem chg_spd_some (fuel newspeed : Nat) (s : State) (hw : s.wf)
    (hn : newspeed < 256) (hf : s.Stu_Dur ≤ fuel) :
    chg_spd fuel newspeed s =
      if newspeed < s.Stu_Spd then
        if newspeed < s.Min_Spd then some ({ s with OCR2B := 255 }, [])
        else some ({ s with temp16 := (s.clk_slo + s.Stu_Dur) % 65536,
                            clk_slo := (s.clk_slo + s.Stu_Dur) % 65536,
                            OCR2B := 255 - newspeed },
                   List.replicate s.Stu_Dur s.OCR2B)
      else some ({ s with OCR2B := 255 - newspeed }, []) := by
  obtain ⟨_, _, _, _, _, _, _, _, _, _, hd, hc, _, _⟩ := hw
  have hcond : cnot s.OCR2B < (s.Min_Spd : Int) := chg_spd_first_test s
  unfold chg_spd
  by_cases h1 : newspeed < s.Stu_Spd
  · by_cases h2 : newspeed < s.Min_Spd
    · simp [hcond, h1, h2, to_u8_cnot]
    · have hwait := wait_clk_some s.Stu_Dur fuel
        { s with temp16 := (s.clk_slo + s.Stu_Dur) % 65536 } hf (by omega) hc rfl
      simp only [hcond, h1, h2, and_self, if_true, if_false, hwait, to_u8_cnot _ hn]
  · simp [h1, to_u8_cnot _ hn]

/-- Claim C5 fails as stated: with min speed 100 above startup speed 20 and a
stopped fan (duty 0, below 100), `chg_spd(50)` takes the immediate branch and
leaves the duty 50, which is neither 0 nor at least 100. -/
theorem stalled_fan_left_below_min :
    (stopped_fan 100 20 5).duty < (stopped_fan 100 20 5).Min_Spd ∧
    chg_spd_obs 5 50 (stopped_fan 100 20 5) = some (50, []) ∧
    ¬ (50 = 0 ∨ (stopped_fan 100 20 5).Min_Spd ≤ 50) := by
  decide

/-- Claim C5, amended: for every configuration with `Min_Spd ≤ Stu_Spd` and
every requested duty, `chg_spd` called on a stalled fan (logical duty below
`Min_Spd`) returns once `Stu_Dur` ticks have passed, and the logical duty it
leaves is 0 or at least `Min_Spd`. -/
theorem stalled_fan_duty_zero_or_min (fuel r : Nat) (s : State) (hw : s.wf)
    (hr : r < 256) (hf : s.Stu_Dur ≤ fuel) (hcfg : s.Min_Spd ≤ s.Stu_Spd)
    (hst : s.duty < s.Min_Spd) :
    ∃ s1 tr, chg_spd fuel r s = some (s1, tr) ∧ s1.Min_Spd = s.Min_Spd ∧
      (s1.duty = 0 ∨ s.Min_Spd ≤ s1.duty) := by
  rw [chg_spd_some fuel r s hw hr hf]
  by_cases h1 : r < s.Stu_Spd
  · by_cases h2 : r < s.Min_Spd
    · simp only [h1, h2, if_true]
      exact ⟨_, _, rfl, rfl, Or.inl rfl⟩
    · simp only [h1, h2, if_true, if_false]
      refine ⟨_, _, rfl, rfl, Or.inr ?_⟩
      simp only [State.duty]
      omega
  · simp only [h1, if_false]
    refine ⟨_, _, rfl, rfl, Or.inr ?_⟩
    simp only [State.duty] at hst ⊢
    omega

/-- Claim C5, amended, at a stopped fan with configuration 20, 100, 5 and the
request 50. -/
theorem stalled_fan_duty_zero_or_min_witness :
    (stopped_fan 20 100 5).wf ∧ (stopped_fan 20 100 5).duty < (stopped_fan 20 100 5).Min_Spd ∧
    ∃ s1 tr, chg_spd 5 50 (stopped_fan 20 100 5) = some (s1, tr) ∧
      s1.Min_Spd = (stopped_fan 20 100 5).Min_Spd ∧
      (s1.duty = 0 ∨ (stopped_fan 20 100 5).Min_Spd ≤ s1.duty) :=
  ⟨by decide, by decide,
    stalled_fan_duty_zero_or_min 5 50 (stopped_fan 20 100 5) (by decide) (by decide)
      (by decide) (by decide) (by decide)⟩

/-! ## A setup command followed by a byte that selects nothing -/

/-- In Auto mode the byte `s` leaves the state as it was: the mode is set to
SETUP and reset to AUTO within the same call. -/
theorem rx_s_in_auto (s : State) (hm : s.mode = AUTO) : USART_RX_vect 115 s = s := by
  cases s
  simp_all [USART_RX_vect, AUTO, MANUAL, SETUP, MIN_S, STU_S, STU_D, HELP]

/-- With nothing pending a main-loop iteration only refreshes the display. -/
theorem main_loop_idle (fuel : Nat) (s : State) (hp : s.dat_ava = 0) :
    main_loop fuel s = some (display_upd s) := by
  cases s
  simp only at hp
  subst hp
  simp [main_loop]

/-- The display routine writes only the display fields. -/
theorem display_upd_frame (s : State) :
    (display_upd s).mode = s.mode ∧ (display_upd s).dat_ava = s.dat_ava ∧
    (display_upd s).rec_dat = s.rec_dat ∧ (display_upd s).OCR2B = s.OCR2B ∧
    same_config s (display_upd s) := by
  simp [display_upd, same_config]

/-- The mode and configuration after one byte received in Auto mode. -/
theorem rx_in_auto (b : Nat) (s : State) (hm : s.mode = AUTO)
    (h1 : b ≠ 49) (h2 : b ≠ 50) (h3 : b ≠ 51) :
    same_config s (USART_RX_vect b s) ∧
    (b ≠ 109 → b ≠ 104 → (USART_RX_vect b s).mode = AUTO) ∧
    (b = 109 → (USART_RX_vect b s).mode = MANUAL) ∧
    (b = 104 → (USART_RX_vect b s).mode = HELP) := by
  unfold USART_RX_vect same_config
  simp only [hm, AUTO, MANUAL, SETUP, MIN_S, STU_S, STU_D, HELP]
  by_cases ha : b = 97
  · subst ha; simp
  by_cases hb : b = 109
  · subst hb; simp
  by_cases hc : b = 115
  · subst hc; simp
  by_cases hd : b = 104
  · subst hd; simp
  simp [ha, hb, hc, hd, hm, AUTO]

/-- Claim C6 fails as stated: from the boot state, `s` followed by `m` (a byte
other than `1`, `2`, `3`) ends in mode Manual, and `s` followed by `h` in
mode Help, with or without a main-loop iteration in between. -/
theorem setup_then_command_byte :
    boot_run [.rx 115, .rx 109] = some [MANUAL, 0, 0, 20, 100, 5, 20, 100, 5, 255] ∧
    boot_run [.rx 115, .loop, .rx 109] = some [MANUAL, 0, 0, 20, 100, 5, 20, 100, 5, 255] ∧
    boot_run [.rx 115, .rx 104] = some [HELP, 0, 0, 20, 100, 5, 20, 100, 5, 255] ∧
    boot_run [.rx 115, .loop, .rx 104] = some [HELP, 0, 0, 20, 100, 5, 20, 100, 5, 255] := by
  decide

/-- Claim C6, amended: from a state in mode Auto with nothing pending, `s`
followed by a byte `b` other than `1`, `2`, `3`, with or without a main-loop
iteration in between (the iteration always returns), leaves `Min_Spd`,
`Stu_Spd`, `Stu_Dur` and the EEPROM unchanged, and ends in mode Auto when `b`
is neither `m` nor `h`, in mode Manual for `m` and in mode Help for `h`. -/
theorem setup_then_invalid_selector (fuel b : Nat) (s : State) (hm : s.mode = AUTO)
    (hp : s.dat_ava = 0) (h1 : b ≠ 49) (h2 : b ≠ 50) (h3 : b ≠ 51) :
    ∃ s1, main_loop fuel (USART_RX_vect 115 s) = some s1 ∧
      ∀ t, t = USART_RX_vect b (USART_RX_vect 115 s) ∨ t = USART_RX_vect b s1 →
        same_config s t ∧ (b ≠ 109 → b ≠ 104 → t.mode = AUTO) ∧
        (b = 109 → t.mode = MANUAL) ∧ (b = 104 → t.mode = HELP) := by
  rw [rx_s_in_auto s hm, main_loop_idle fuel s hp]
  refine ⟨_, rfl, ?_⟩
  obtain ⟨dm, _, _, _, dc1, dc2, dc3, dc4⟩ := display_upd_frame s
  rintro t (rfl | rfl)
  · exact rx_in_auto b s hm h1 h2 h3
  · obtain ⟨⟨c1, c2, c3, c4⟩, r⟩ := rx_in_auto b (display_upd s) (dm.trans hm) h1 h2 h3
    exact ⟨⟨c1.trans dc1, c2.trans dc2, c3.trans dc3, c4.trans dc4⟩, r⟩

/-- Claim C6, amended, at the state after reset with configuration 20, 100, 5
in the EEPROM and the byte `9`. -/
theorem setup_then_invalid_selector_witness :
    ∃ s1, main_loop 0 (USART_RX_vect 115 (reset_state (eeprom_image 20 100 5))) = some s1 ∧
      ∀ t, t = USART_RX_vect 57 (USART_RX_vect 115 (reset_state (eeprom_image 20 100 5))) ∨
          t = USART_RX_vect 57 s1 →
        same_config (reset_state (eeprom_image 20 100 5)) t ∧
        ((57 : Nat) ≠ 109 → (57 : Nat) ≠ 104 → t.mode = AUTO) ∧
        ((57 : Nat) = 109 → t.mode = MANUAL) ∧ ((57 : Nat) = 104 → t.mode = HELP) :=
  setup_then_invalid_selector 0 57 (reset_state (eeprom_image 20 100 5)) rfl rfl
    (by decide) (by decide) (by decide)

/-! ## The display with a single glyph -/

/-- One call of `display_upd()` when slot 1 holds `g` and slots 2 and 3 are
empty or already hold `g`: all three slots hold `g` afterwards, the phase is
`clk_slo mod 16 / 4`, and the lit glyph is blank in phase 0 and `g` otherwise. -/
theorem display_upd_glyph (g : Nat) (s : State) (h1 : s.disp1 = g)
    (h2 : s.disp2 = 0 ∨ s.disp2 = g) (h3 : s.disp3 = 0 ∨ s.disp3 = g) :
    (display_upd s).disp1 = g ∧ (display_upd s).disp2 = g ∧ (display_upd s).disp3 = g ∧
    (display_upd s).dispt = s.clk_slo % 16 / 4 ∧
    (display_upd s).dat_7 = if s.clk_slo % 16 / 4 = 0 then 0 else g := by
  have hp : s.clk_slo % 16 / 4 = 0 ∨ s.clk_slo % 16 / 4 = 1 ∨ s.clk_slo % 16 / 4 = 2 ∨
      s.clk_slo % 16 / 4 = 3 := by omega
  by_cases g0 : g = 0
  · subst g0
    have h2z : s.disp2 = 0 := by rcases h2 with h | h <;> exact h
    have h3z : s.disp3 = 0 := by rcases h3 with h | h <;> exact h
    rcases hp with hp | hp | hp | hp <;> simp [display_upd, h1, h2z, h3z, hp]
  · rcases h2 with h2 | h2 <;> rcases h3 with h3 | h3 <;>
      rcases hp with hp | hp | hp | hp <;>
      simp [display_upd, h1, h2, h3, hp, g0]

/-- The slots stay at the single glyph over any number of display calls. -/
theorem display_run_slots (g : Nat) (cs : List Nat) : ∀ s : State, s.disp1 = g →
    (s.disp2 = 0 ∨ s.disp2 = g) → (s.disp3 = 0 ∨ s.disp3 = g) →
    (display_run cs s).disp1 = g ∧
    ((display_run cs s).disp2 = 0 ∨ (display_run cs s).disp2 = g) ∧
    ((display_run cs s).disp3 = 0 ∨ (display_run cs s).disp3 = g) := by
  induction cs with
  | nil => intro s h1 h2 h3; exact ⟨h1, h2, h3⟩
  | cons c cs ih =>
    intro s h1 h2 h3
    obtain ⟨k1, k2, k3, _, _⟩ := display_upd_glyph g { s with clk_slo := c } h1 h2 h3
    exact ih (display_upd { s with clk_slo := c }) k1 (Or.inr k2) (Or.inr k3)

/-- Claim C8: with slot 1 holding a non-zero glyph `g` and slots 2 and 3
empty, the call of `display_upd()` at slow-tick value `c`, whether it is the
first call or comes after calls at any other slow-tick values `cs`, computes
the phase `c mod 16 / 4` and sets the lit glyph `dat_7` to 0 in phase 0 and to
`g` in phases 1, 2 and 3. -/
theorem single_glyph_display (g c : Nat) (cs : List Nat) (s : State) (hg : g ≠ 0)
    (h1 : s.disp1 = g) (h2 : s.disp2 = 0) (h3 : s.disp3 = 0) :
    (display_run (cs ++ [c]) s).dispt = c % 16 / 4 ∧
    (c % 16 / 4 = 0 → (display_run (cs ++ [c]) s).dat_7 = 0) ∧
    (c % 16 / 4 = 1 ∨ c % 16 / 4 = 2 ∨ c % 16 / 4 = 3 →
      (display_run (cs ++ [c]) s).dat_7 = g) := by
  obtain ⟨k1, k2, k3⟩ := display_run_slots g cs s h1 (Or.inl h2) (Or.inl h3)
  obtain ⟨_, _, _, kt, kd⟩ :=
    display_upd_glyph g { display_run cs s with clk_slo := c } k1 k2 k3
  have hrun : display_run (cs ++ [c]) s
      = display_upd { display_run cs s with clk_slo := c } := by
    simp [display_run, List.foldl_append]
  rw [hrun]
  refine ⟨kt, ?_, ?_⟩
  · intro h0
    rw [kd]
    simp only [] at h0 ⊢
    rw [if_pos h0]
  · intro h123
    rw [kd]
    have hne : ¬ (c % 16 / 4 = 0) := by omega
    simp only [] at hne ⊢
    rw [if_neg hne]

/-- Claim C8 at the glyph `ss_a` in slot 1 after reset: the fifth display
call, at slow tick 5 (phase 1), lights `ss_a`. -/
theorem single_glyph_display_witness :
    (display_run ([0, 4, 8, 12] ++ [5])
        { reset_state (eeprom_image 20 100 5) with disp1 := ss_a }).dispt = 5 % 16 / 4 ∧
    (5 % 16 / 4 = 0 → (display_run ([0, 4, 8, 12] ++ [5])
        { reset_state (eeprom_image 20 100 5) with disp1 := ss_a }).dat_7 = 0) ∧
    (5 % 16 / 4 = 1 ∨ 5 % 16 / 4 = 2 ∨ 5 % 16 / 4 = 3 →
      (display_run ([0, 4, 8, 12] ++ [5])
        { reset_state (eeprom_image 20 100 5) with disp1 := ss_a }).dat_7 = ss_a) :=
  single_glyph_display ss_a 5 [0, 4, 8, 12]
    { reset_state (eeprom_image 20 100 5) with disp1 := ss_a } (by decide) rfl rfl rfl

/-! ## The fault handler -/

/-- The serial-receive handler writes `mode`, `rec_dat` and `dat_ava` only:
the fan register, the configuration and the EEPROM are left alone. -/
theorem rx_frame (b : Nat) (s : State) :
    (USART_RX_vect b s).OCR2B = s.OCR2B ∧ same_config s (USART_RX_vect b s) := by
  by_cases h : s.mode = MIN_S ∨ s.mode = STU_S ∨ s.mode = STU_D ∨ s.mode = MANUAL
  · simp [USART_RX_vect, same_config, h]
  · simp [USART_RX_vect, same_config, h]

/-- The loop of the fault handler writes `dat_7` only. -/
theorem BADISR_loop_frame (s : State) : (BADISR_loop s).OCR2B = s.OCR2B := by
  simp [BADISR_loop]

/-- Every step from the fault location stays there and keeps `OCR2B`. -/
theorem step_from_fault (m n : Machine) (h : Step m n) (hl : m.loc = Loc.fault) :
    n.loc = Loc.fault ∧ n.st.OCR2B = m.st.OCR2B := by
  cases h with
  | rx l data s => exact ⟨hl, (rx_frame data s).1⟩
  | tick l s => exact ⟨hl, rfl⟩
  | loop fuel s t h => cases hl
  | badisr s => cases hl
  | fault_loop s => exact ⟨rfl, BADISR_loop_frame s⟩

/-- Claim C9: on entry the fault handler sets `OCR2B = 0` (logical duty 255)
whatever the state was, and every machine state reached from there by any
number of steps is still in the fault handler with `OCR2B = 0` (logical duty
255): no step returns to the main loop or changes the fan output. -/
theorem fault_handler_terminal (s : State) (m : Machine)
    (h : Relation.ReflTransGen Step (BADISR_vect s) m) :
    (BADISR_vect s).loc = Loc.fault ∧ (BADISR_vect s).st.OCR2B = 0 ∧
    (BADISR_vect s).st.duty = 255 ∧
    m.loc = Loc.fault ∧ m.st.OCR2B = 0 ∧ m.st.duty = 255 := by
  have key : m.loc = Loc.fault ∧ m.st.OCR2B = 0 := by
    induction h with
    | refl => exact ⟨rfl, rfl⟩
    | tail _ hstep ih =>
      obtain ⟨hl, ho⟩ := step_from_fault _ _ hstep ih.1
      exact ⟨hl, ho.trans ih.2⟩
  refine ⟨rfl, rfl, rfl, key.1, key.2, ?_⟩
  simp [State.duty, key.2]

/-- Claim C9 at the state after reset with the fan off (`OCR2B = 255`): after
the entry, a slow tick and a pass through the fault loop the machine is in
the fault handler with `OCR2B = 0`. -/
theorem fault_handler_terminal_witness :
    (BADISR_vect (stopped_fan 20 100 5)).loc = Loc.fault ∧
    (BADISR_vect (stopped_fan 20 100 5)).st.OCR2B = 0 ∧
    (BADISR_vect (stopped_fan 20 100 5)).st.duty = 255 ∧
    (Machine.mk Loc.fault
      (BADISR_loop (TIMER1_COMPA_vect (BADISR_entry (stopped_fan 20 100 5))))).loc = Loc.fault ∧
    (Machine.mk Loc.fault
      (BADISR_loop (TIMER1_COMPA_vect (BADISR_entry (stopped_fan 20 100 5))))).st.OCR2B = 0 ∧
    (Machine.mk Loc.fault
      (BADISR_loop (TIMER1_COMPA_vect (BADISR_entry (stopped_fan 20 100 5))))).st.duty = 255 :=
  fault_handler_terminal (stopped_fan 20 100 5) _
    (Relation.ReflTransGen.tail
      (Relation.ReflTransGen.single (Step.tick Loc.fault _)) (Step.fault_loop _))

/-! ## The setup selector -/

/-- Claim C11 fails as stated: in mode SETUP the byte `m` leaves the mode
Manual and the byte `h` leaves it Help, not Auto. -/
theorem setup_mode_command_bytes :
    setup_state.mode = SETUP ∧
    (USART_RX_vect 109 setup_state).mode = MANUAL ∧
    (USART_RX_vect 104 setup_state).mode = HELP := by
  decide

/-- Claim C11, amended: in mode SETUP the byte `1` leaves the mode MIN_S, `2`
STU_S, `3` STU_D; `m` leaves it Manual and `h` Help; every other byte
(`a` and `s` included) leaves it Auto. -/
theorem setup_selector (s : State) (hm : s.mode = SETUP) :
    (USART_RX_vect 49 s).mode = MIN_S ∧ (USART_RX_vect 50 s).mode = STU_S ∧
    (USART_RX_vect 51 s).mode = STU_D ∧
    (USART_RX_vect 109 s).mode = MANUAL ∧ (USART_RX_vect 104 s).mode = HELP ∧
    ∀ b, b ≠ 49 → b ≠ 50 → b ≠ 51 → b ≠ 109 → b ≠ 104 →
      (USART_RX_vect b s).mode = AUTO := by
  refine ⟨?_, ?_, ?_, ?_, ?_, ?_⟩
  · simp [USART_RX_vect, hm, AUTO, MANUAL, SETUP, MIN_S, STU_S, STU_D, HELP]
  · simp [USART_RX_vect, hm, AUTO, MANUAL, SETUP, MIN_S, STU_S, STU_D, HELP]
  · simp [USART_RX_vect, hm, AUTO, MANUAL, SETUP, MIN_S, STU_S, STU_D, HELP]
  · simp [USART_RX_vect, hm, AUTO, MANUAL, SETUP, MIN_S, STU_S, STU_D, HELP]
  · simp [USART_RX_vect, hm, AUTO, MANUAL, SETUP, MIN_S, STU_S, STU_D, HELP]
  · intro b h1 h2 h3 h4 h5
    by_cases ha : b = 97
    · subst ha
      simp [USART_RX_vect, hm, AUTO, MANUAL, SETUP, MIN_S, STU_S, STU_D, HELP]
    by_cases hs : b = 115
    · subst hs
      simp [USART_RX_vect, hm, AUTO, MANUAL, SETUP, MIN_S, STU_S, STU_D, HELP]
    simp [USART_RX_vect, hm, AUTO, MANUAL, SETUP, MIN_S, STU_S, STU_D, HELP,
      h1, h2, h3, h4, h5, ha, hs]

/-- Claim C11, amended, at a state in mode SETUP after reset. -/
theorem setup_selector_witness :
    (USART_RX_vect 49 setup_state).mode = MIN_S ∧
    (USART_RX_vect 50 setup_state).mode = STU_S ∧
    (USART_RX_vect 51 setup_state).mode = STU_D ∧
    (USART_RX_vect 109 setup_state).mode = MANUAL ∧
    (USART_RX_vect 104 setup_state).mode = HELP ∧
    ∀ b, b ≠ 49 → b ≠ 50 → b ≠ 51 → b ≠ 109 → b ≠ 104 →
      (USART_RX_vect b setup_state).mode = AUTO :=
  setup_selector setup_state rfl

/-! ## Bytes received in a data-expected mode -/

/-- What the handler does in a data-expected mode: the byte is stored, the
counter is incremented on 8 bits, nothing else changes. -/
theorem rx_in_data_mode (b : Nat) (s : State) (hm : data_mode s.mode) :
    USART_RX_vect b s = { s with rec_dat := b, dat_ava := (s.dat_ava + 1) % 256 } := by
  unfold data_mode at hm
  simp [USART_RX_vect, hm]

/-- Claim C12: in a data-expected mode (Manual, MIN_S, STU_S, STU_D) one call
of the serial-receive handler with any byte `b` (command letters included)
leaves the mode unchanged and stores `b` in `rec_dat`; when nothing was
pending the counter is 1 afterwards. -/
theorem data_byte_is_stored (b : Nat) (s : State) (hm : data_mode s.mode) :
    (USART_RX_vect b s).mode = s.mode ∧ (USART_RX_vect b s).rec_dat = b ∧
    (s.dat_ava = 0 → (USART_RX_vect b s).dat_ava = 1) := by
  rw [rx_in_data_mode b s hm]
  refine ⟨rfl, rfl, ?_⟩
  intro h0
  simp [h0]

/-- Claim C12 at Manual mode with nothing pending and the byte `m`. -/
theorem data_byte_is_stored_witness :
    (USART_RX_vect 109 { manual_full with dat_ava := 0 }).mode = MANUAL ∧
    (USART_RX_vect 109 { manual_full with dat_ava := 0 }).rec_dat = 109 ∧
    ((0 : Nat) = 0 → (USART_RX_vect 109 { manual_full with dat_ava := 0 }).dat_ava = 1) :=
  data_byte_is_stored 109 { manual_full with dat_ava := 0 } (by decide)

/-- Claim C13 fails as stated: in Manual mode with the byte 200 pending and
unconsumed (counter 1) the byte `m` replaces the stored byte: `rec_dat`
becomes 109, and the counter becomes 2. -/
theorem pending_byte_is_overwritten :
    (pending_state MANUAL 200).rec_dat = 200 ∧ (pending_state MANUAL 200).dat_ava = 1 ∧
    (USART_RX_vect 109 (pending_state MANUAL 200)).rec_dat = 109 ∧
    (USART_RX_vect 109 (pending_state MANUAL 200)).dat_ava = 2 := by
  decide

/-- Claim C13, amended: in a data-expected mode with the counter at least 1
and below 255, one call of the serial-receive handler with any byte `b`
stores `b` in `rec_dat` (the unconsumed byte is replaced), increments the
counter by one and leaves the mode unchanged. -/
theorem second_byte_replaces_and_counts (b : Nat) (s : State) (hm : data_mode s.mode)
    (h1 : 1 ≤ s.dat_ava) (h2 : s.dat_ava < 255) :
    (USART_RX_vect b s).rec_dat = b ∧ (USART_RX_vect b s).dat_ava = s.dat_ava + 1 ∧
    (USART_RX_vect b s).mode = s.mode := by
  rw [rx_in_data_mode b s hm]
  refine ⟨rfl, ?_, rfl⟩
  show (s.dat_ava + 1) % 256 = s.dat_ava + 1
  omega

/-- Claim C13, amended, at Manual mode with the byte 200 pending and the
byte `m` received. -/
theorem second_byte_replaces_and_counts_witness :
    (USART_RX_vect 109 (pending_state MANUAL 200)).rec_dat = 109 ∧
    (USART_RX_vect 109 (pending_state MANUAL 200)).dat_ava
      = (pending_state MANUAL 200).dat_ava + 1 ∧
    (USART_RX_vect 109 (pending_state MANUAL 200)).mode = (pending_state MANUAL 200).mode :=
  second_byte_replaces_and_counts 109 (pending_state MANUAL 200) (by decide) (by decide)
    (by decide)

/-! ## The main loop and its pending byte -/

/-- Claim C14, evaluated on the code: with the byte 50 pending in Manual mode
(configuration 20, 100, 5, slow tick 0) one main-loop iteration sets the duty
50 after a wait of five ticks and leaves `dat_ava` at 1; a second iteration
with no new byte applies the byte again (it waits five more ticks, slow tick
10).  With the byte 30 pending in mode MIN_S one iteration leaves `dat_ava`
at 1 as well. -/
theorem pending_byte_is_not_cleared :
    (main_loop 10 (pending_state MANUAL 50)).map
        (fun s => [s.mode, s.dat_ava, s.duty, s.clk_slo]) = some [MANUAL, 1, 50, 5] ∧
    ((main_loop 10 (pending_state MANUAL 50)).bind (main_loop 10)).map
        (fun s => [s.mode, s.dat_ava, s.duty, s.clk_slo]) = some [MANUAL, 1, 50, 10] ∧
    (main_loop 10 (pending_state MIN_S 30)).map
        (fun s => [s.mode, s.dat_ava]) = some [AUTO, 1] := by
  decide

/-- One main-loop iteration with one byte pending in a setup mode whose
EEPROM address is `addr`: the byte is written to the EEPROM, the mode becomes
Auto and the display is refreshed. -/
theorem main_loop_setup (fuel addr : Nat) (s : State) (h1 : s.dat_ava = 1)
    (hm : (s.mode = MIN_S ∧ addr = MIN_S_ADD) ∨ (s.mode = STU_S ∧ addr = STU_S_ADD) ∨
      (s.mode = STU_D ∧ addr = STU_D_ADD)) :
    main_loop fuel s
      = some (display_upd { eeprom_wb_direct addr s.rec_dat s with mode := AUTO }) := by
  rcases hm with ⟨hm, rfl⟩ | ⟨hm, rfl⟩ | ⟨hm, rfl⟩ <;>
    simp [main_loop, h1, hm, eeprom_wb_direct, AUTO, MANUAL, MIN_S, STU_S, STU_D]

/-- Claim C15 fails as stated: with the byte 30 pending in mode MIN_S and the
configuration 20, 100, 5, one main-loop iteration writes 30 to the EEPROM byte
at `MIN_S_ADD` but leaves `Min_Spd` at 20; likewise 30 pending in STU_S leaves
`Stu_Spd` at 100 and 30 pending in STU_D leaves `Stu_Dur` at 5. -/
theorem setup_byte_not_loaded :
    (main_loop 10 (pending_state MIN_S 30)).map
        (fun s => [s.Min_Spd, s.eeprom MIN_S_ADD]) = some [20, 30] ∧
    (main_loop 10 (pending_state STU_S 30)).map
        (fun s => [s.Stu_Spd, s.eeprom STU_S_ADD]) = some [100, 30] ∧
    (main_loop 10 (pending_state STU_D 30)).map
        (fun s => [s.Stu_Dur, s.eeprom STU_D_ADD]) = some [5, 30] := by
  decide

/-- Claim C15, amended: with exactly one byte `v` pending in mode MIN_S
(respectively STU_S, STU_D) one main-loop iteration returns and leaves the
persisted byte at `MIN_S_ADD` (respectively `STU_S_ADD`, `STU_D_ADD`) equal to
`v`, the other two persisted bytes unchanged, and the three in-memory fields
`Min_Spd`, `Stu_Spd`, `Stu_Dur` unchanged. -/
theorem setup_byte_is_persisted (fuel v : Nat) (s : State) (h1 : s.dat_ava = 1)
    (hv : s.rec_dat = v) :
    (s.mode = MIN_S → ∃ t, main_loop fuel s = some t ∧
      t.eeprom MIN_S_ADD = v ∧ t.eeprom STU_S_ADD = s.eeprom STU_S_ADD ∧
      t.eeprom STU_D_ADD = s.eeprom STU_D_ADD ∧
      t.Min_Spd = s.Min_Spd ∧ t.Stu_Spd = s.Stu_Spd ∧ t.Stu_Dur = s.Stu_Dur) ∧
    (s.mode = STU_S → ∃ t, main_loop fuel s = some t ∧
      t.eeprom STU_S_ADD = v ∧ t.eeprom MIN_S_ADD = s.eeprom MIN_S_ADD ∧
      t.eeprom STU_D_ADD = s.eeprom STU_D_ADD ∧
      t.Min_Spd = s.Min_Spd ∧ t.Stu_Spd = s.Stu_Spd ∧ t.Stu_Dur = s.Stu_Dur) ∧
    (s.mode = STU_D → ∃ t, main_loop fuel s = some t ∧
      t.eeprom STU_D_ADD = v ∧ t.eeprom MIN_S_ADD = s.eeprom MIN_S_ADD ∧
      t.eeprom STU_S_ADD = s.eeprom STU_S_ADD ∧
      t.Min_Spd = s.Min_Spd ∧ t.Stu_Spd = s.Stu_Spd ∧ t.Stu_Dur = s.Stu_Dur) := by
  refine ⟨?_, ?_, ?_⟩
  · intro hm
    refine ⟨_, main_loop_setup fuel MIN_S_ADD s h1 (Or.inl ⟨hm, rfl⟩), ?_⟩
    simp [display_upd, eeprom_wb_direct, hv, MIN_S_ADD, STU_S_ADD, STU_D_ADD]
  · intro hm
    refine ⟨_, main_loop_setup fuel STU_S_ADD s h1 (Or.inr (Or.inl ⟨hm, rfl⟩)), ?_⟩
    simp [display_upd, eeprom_wb_direct, hv, MIN_S_ADD, STU_S_ADD, STU_D_ADD]
  · intro hm
    refine ⟨_, main_loop_setup fuel STU_D_ADD s h1 (Or.inr (Or.inr ⟨hm, rfl⟩)), ?_⟩
    simp [display_upd, eeprom_wb_direct, hv, MIN_S_ADD, STU_S_ADD, STU_D_ADD]

/-- Claim C15, amended, at the byte 30 pending in mode MIN_S with the
configuration 20, 100, 5. -/
theorem setup_byte_is_persisted_witness :
    ∃ t, main_loop 0 (pending_state MIN_S 30) = some t ∧
      t.eeprom MIN_S_ADD = 30 ∧
      t.eeprom STU_S_ADD = (pending_state MIN_S 30).eeprom STU_S_ADD ∧
      t.eeprom STU_D_ADD = (pending_state MIN_S 30).eeprom STU_D_ADD ∧
      t.Min_Spd = (pending_state MIN_S 30).Min_Spd ∧
      t.Stu_Spd = (pending_state MIN_S 30).Stu_Spd ∧
      t.Stu_Dur = (pending_state MIN_S 30).Stu_Dur :=
  (setup_byte_is_persisted 0 30 (pending_state MIN_S 30) rfl rfl).1 rfl

/-! ## The analog sampling handler -/

/-- Claim C17, evaluated on the code: with channel 0 selected (`ADMUX =
0b01100000`), `pot_man = 1` and `pot_set = 5`, a sample-ready event with the
sample 77 stores 77 in `pot_man` and also in `pot_set`, and leaves channel 0
selected; a second event with the sample 78 again stores it in both fields
with channel 0 selected.  The second `if` of the handler sees the channel
that the first one has just advanced to. -/
theorem adc_event_stores_both :
    (adc_init 1 5).ADMUX % 8 = 0 ∧
    ADC_vect 77 (adc_init 1 5)
      = { ADMUX := 0b01100000, ADCSRA := 0b11101111, pot_man := 77, pot_set := 77 } ∧
    ADC_vect 78 (ADC_vect 77 (adc_init 1 5))
      = { ADMUX := 0b01100000, ADCSRA := 0b11101111, pot_man := 78, pot_set := 78 } := by
  decide

/-! ## The boot call of the ramp controller -/

/-- Claim C19: for every state whose startup speed is a byte, whatever the
other configuration bytes and the fan register are, `chg_spd(255)` takes the
immediate branch: it returns with any fuel, there is no wait (no tick is
recorded, `clk_slo` and `temp16` keep their values) and the fan register is 0,
the logical duty 255. -/
theorem boot_speed_is_immediate (fuel : Nat) (s : State) (hb : s.Stu_Spd < 256) :
    chg_spd fuel 255 s = some ({ s with OCR2B := 0 }, []) ∧
    ({ s with OCR2B := 0 } : State).duty = 255 := by
  have hn : ¬ (255 < s.Stu_Spd) := by omega
  have h0 : to_u8 (cnot 255) = 0 := by decide
  refine ⟨?_, rfl⟩
  simp [chg_spd, hn, h0]

/-- Claim C19 at an erased EEPROM (255, 255, 255) loaded by `io_init()`, with
no fuel at all. -/
theorem boot_speed_is_immediate_witness :
    chg_spd 0 255 (stopped_fan 255 255 255)
      = some ({ stopped_fan 255 255 255 with OCR2B := 0 }, []) ∧
    ({ stopped_fan 255 255 255 with OCR2B := 0 } : State).duty = 255 :=
  boot_speed_is_immediate 0 (stopped_fan 255 255 255) (by decide)

/-! ## The timed waits -/

/-- After `k` slow ticks the counter has advanced by `k` modulo 65536 and the
captured target is untouched. -/
theorem ticks_advance (k : Nat) (s : State) (hc : s.clk_slo < 65536) :
    (TIMER1_COMPA_vect^[k] s).clk_slo = (s.clk_slo + k) % 65536 ∧
    (TIMER1_COMPA_vect^[k] s).temp16 = s.temp16 := by
  induction k with
  | zero => exact ⟨by simp; omega, rfl⟩
  | succ k ih =>
    rw [Function.iterate_succ_apply']
    obtain ⟨i1, i2⟩ := ih
    refine ⟨?_, ?_⟩
    · show ((TIMER1_COMPA_vect^[k] s).clk_slo + 1) % 65536 = _
      rw [i1]
      omega
    · show (TIMER1_COMPA_vect^[k] s).temp16 = _
      exact i2

/-- Claim C18: for a 16-bit slow-tick value `c`, an 8-bit duration `d` and
the target captured as `(c + d) mod 65536`, the exit condition
`temp16 == clk_slo` is false after each of the first `k < d` ticks and true
after `d` ticks (at once when `d = 0`), whether or not `c + d` overflows; the
wait loop, given fuel for `d` ticks, returns after exactly `d` ticks with the
slow tick at the target. -/
theorem wait_ends_after_exactly (c d fuel : Nat) (s : State) (hc : c < 65536)
    (hd : d < 256) (hf : d ≤ fuel) (hs : s.clk_slo = c)
    (ht : s.temp16 = (c + d) % 65536) :
    (∀ k, k < d → (TIMER1_COMPA_vect^[k] s).temp16 ≠ (TIMER1_COMPA_vect^[k] s).clk_slo) ∧
    (TIMER1_COMPA_vect^[d] s).temp16 = (TIMER1_COMPA_vect^[d] s).clk_slo ∧
    ∃ t tr, wait_clk fuel s = some (t, tr) ∧ tr.length = d ∧
      t.clk_slo = (c + d) % 65536 := by
  subst hs
  refine ⟨?_, ?_, ?_⟩
  · intro k hk
    obtain ⟨a1, a2⟩ := ticks_advance k s hc
    rw [a1, a2, ht]
    omega
  · obtain ⟨a1, a2⟩ := ticks_advance d s hc
    rw [a1, a2, ht]
  · refine ⟨_, _, wait_clk_some d fuel s hf (by omega) hc ht, ?_, ?_⟩
    · simp
    · exact ht

/-- Claim C18 at a slow tick of 65530 and the 20 ticks of the boot wait: the
target wraps to 14. -/
theorem wait_ends_after_exactly_witness :
    (∀ k, k < 20 →
      (TIMER1_COMPA_vect^[k]
        { reset_state (eeprom_image 20 100 5) with clk_slo := 65530, temp16 := 14 }).temp16 ≠
      (TIMER1_COMPA_vect^[k]
        { reset_state (eeprom_image 20 100 5) with clk_slo := 65530, temp16 := 14 }).clk_slo) ∧
    (TIMER1_COMPA_vect^[20]
        { reset_state (eeprom_image 20 100 5) with clk_slo := 65530, temp16 := 14 }).temp16 =
      (TIMER1_COMPA_vect^[20]
        { reset_state (eeprom_image 20 100 5) with clk_slo := 65530, temp16 := 14 }).clk_slo ∧
    ∃ t tr, wait_clk 20
        { reset_state (eeprom_image 20 100 5) with clk_slo := 65530, temp16 := 14 }
          = some (t, tr) ∧ tr.length = 20 ∧ t.clk_slo = (65530 + 20) % 65536 :=
  wait_ends_after_exactly 65530 20 20
    { reset_state (eeprom_image 20 100 5) with clk_slo := 65530, temp16 := 14 }
    (by decide) (by decide) (by decide) rfl rfl

/-- The ramp controller returns once the fuel covers `Stu_Dur` ticks, and it
writes only the fan register, the captured target and (through the ticks of
its wait) the slow-tick counter. -/
theorem chg_spd_returns (fuel r : Nat) (s : State) (hc : s.clk_slo < 65536)
    (hd : s.Stu_Dur < 65536) (hf : s.Stu_Dur ≤ fuel) :
    ∃ o c t16 tr, chg_spd fuel r s
        = some ({ s with OCR2B := o, clk_slo := c, temp16 := t16 }, tr) ∧ c < 65536 := by
  unfold chg_spd
  by_cases h1 : cnot s.OCR2B < (s.Min_Spd : Int) ∧ r < s.Stu_Spd
  · by_cases h2 : r < s.Min_Spd
    · exact ⟨to_u8 (cnot 0), s.clk_slo, s.temp16, [], by simp [h1, h2], hc⟩
    · have hwait := wait_clk_some s.Stu_Dur fuel
        { s with temp16 := (s.clk_slo + s.Stu_Dur) % 65536 } hf hd hc rfl
      refine ⟨to_u8 (cnot r), (s.clk_slo + s.Stu_Dur) % 65536,
        (s.clk_slo + s.Stu_Dur) % 65536, List.replicate s.Stu_Dur s.OCR2B, ?_,
        Nat.mod_lt _ (by decide)⟩
      rw [if_pos h1, if_neg h2]
      simp only [hwait]
  · exact ⟨to_u8 (cnot r), s.clk_slo, s.temp16, [], by simp [h1], hc⟩

/-! ## One main-loop iteration, case by case -/

/-- With one byte pending in Manual mode the iteration calls the ramp
controller and returns; the mode and the counter are left as they were. -/
theorem main_loop_manual (fuel : Nat) (s : State) (h1 : s.dat_ava = 1)
    (hm : s.mode = MANUAL) (hc : s.clk_slo < 65536) (hd : s.Stu_Dur < 65536)
    (hf : s.Stu_Dur ≤ fuel) :
    ∃ o c t16, main_loop fuel s
        = some (display_upd { s with OCR2B := o, clk_slo := c, temp16 := t16 }) ∧
      c < 65536 := by
  obtain ⟨o, c, t16, tr, hchg, hlt⟩ := chg_spd_returns fuel s.rec_dat s hc hd hf
  refine ⟨o, c, t16, ?_, hlt⟩
  simp [main_loop, h1, hm, hchg, AUTO, MANUAL, MIN_S, STU_S, STU_D]

/-- With one byte pending in a mode that expects no data the iteration counts
it as an error and discards it: mode Auto, counter 0, nothing else touched
but the display. -/
theorem main_loop_stray (fuel : Nat) (s : State) (h1 : s.dat_ava = 1)
    (hm : ¬ data_mode s.mode) :
    main_loop fuel s = some (display_upd { s with mode := AUTO, dat_ava := 0 }) := by
  unfold data_mode at hm
  simp only [not_or] at hm
  obtain ⟨m1, m2, m3, m4⟩ := hm
  simp [main_loop, h1, m1, m2, m3, m4, AUTO]

/-- With two or more bytes counted the iteration discards them: mode Auto,
counter 0, nothing else touched but the display. -/
theorem main_loop_overflow (fuel : Nat) (s : State) (h2 : 2 ≤ s.dat_ava) :
    main_loop fuel s = some (display_upd { s with mode := AUTO, dat_ava := 0 }) := by
  have hne : s.dat_ava ≠ 1 := by omega
  have hgt : 1 < s.dat_ava := by omega
  simp [main_loop, hne, hgt]

/-- Claim C16: one main-loop iteration (it returns once the fuel covers
`Stu_Dur` ticks) leaves mode Auto and counter 0 when the counter was 2 or
more; mode Manual when one byte was pending in Manual; mode Auto when one byte
was pending in any other mode; the mode unchanged when nothing was pending.
The counter is at most 1 afterwards, and a byte pending in Auto, SETUP or Help
is discarded (counter 0) with the fan register, the configuration and the
EEPROM unchanged. -/
theorem main_loop_outcome (fuel : Nat) (s : State) (hw : s.wf) (hf : s.Stu_Dur ≤ fuel) :
    ∃ t, main_loop fuel s = some t ∧
      (2 ≤ s.dat_ava → t.mode = AUTO ∧ t.dat_ava = 0) ∧
      (s.dat_ava = 1 → s.mode = MANUAL → t.mode = MANUAL) ∧
      (s.dat_ava = 1 → s.mode ≠ MANUAL → t.mode = AUTO) ∧
      (s.dat_ava = 0 → t.mode = s.mode) ∧
      t.dat_ava ≤ 1 ∧
      (1 ≤ s.dat_ava → s.mode = AUTO ∨ s.mode = SETUP ∨ s.mode = HELP →
        t.dat_ava = 0 ∧ t.OCR2B = s.OCR2B ∧ same_config s t) := by
  obtain ⟨_, _, _, _, _, _, _, _, _, _, hd, hc, _, _⟩ := hw
  have hnd : s.mode = AUTO ∨ s.mode = SETUP ∨ s.mode = HELP → ¬ data_mode s.mode := by
    unfold data_mode
    simp only [AUTO, SETUP, HELP, MIN_S, STU_S, STU_D, MANUAL]
    omega
  rcases Nat.lt_trichotomy s.dat_ava 1 with h0 | h1 | h2
  · -- nothing pending
    have hz : s.dat_ava = 0 := by omega
    obtain ⟨dm, da, _, dO, dc⟩ := display_upd_frame s
    refine ⟨_, main_loop_idle fuel s hz, ?_, ?_, ?_, ?_, ?_, ?_⟩
    · intro h; omega
    · intro h; omega
    · intro h; omega
    · intro _; exact dm
    · rw [da]; omega
    · intro h; omega
  · by_cases hdm : data_mode s.mode
    · rcases hdm with hm | hm | hm | hm
      · -- MIN_S
        obtain ⟨dm, da, _, dO, dc⟩ := display_upd_frame
          { eeprom_wb_direct MIN_S_ADD s.rec_dat s with mode := AUTO }
        refine ⟨_, main_loop_setup fuel MIN_S_ADD s h1 (Or.inl ⟨hm, rfl⟩),
          ?_, ?_, ?_, ?_, ?_, ?_⟩
        · intro h; omega
        · intro _ h; rw [hm] at h; exact absurd h (by decide)
        · intro _ _; exact dm
        · intro h; omega
        · rw [da]; show s.dat_ava ≤ 1; omega
        · intro _ h; exact absurd (Or.inl hm) (hnd h)
      · -- STU_S
        obtain ⟨dm, da, _, dO, dc⟩ := display_upd_frame
          { eeprom_wb_direct STU_S_ADD s.rec_dat s with mode := AUTO }
        refine ⟨_, main_loop_setup fuel STU_S_ADD s h1 (Or.inr (Or.inl ⟨hm, rfl⟩)),
          ?_, ?_, ?_, ?_, ?_, ?_⟩
        · intro h; omega
        · intro _ h; rw [hm] at h; exact absurd h (by decide)
        · intro _ _; exact dm
        · intro h; omega
        · rw [da]; show s.dat_ava ≤ 1; omega
        · intro _ h; exact absurd (Or.inr (Or.inl hm)) (hnd h)
      · -- STU_D
        obtain ⟨dm, da, _, dO, dc⟩ := display_upd_frame
          { eeprom_wb_direct STU_D_ADD s.rec_dat s with mode := AUTO }
        refine ⟨_, main_loop_setup fuel STU_D_ADD s h1 (Or.inr (Or.inr ⟨hm, rfl⟩)),
          ?_, ?_, ?_, ?_, ?_, ?_⟩
        · intro h; omega
        · intro _ h; rw [hm] at h; exact absurd h (by decide)
        · intro _ _; exact dm
        · intro h; omega
        · rw [da]; show s.dat_ava ≤ 1; omega
        · intro _ h; exact absurd (Or.inr (Or.inr (Or.inl hm))) (hnd h)
      · -- MANUAL
        obtain ⟨o, c, t16, hrun, _⟩ := main_loop_manual fuel s h1 hm hc (by omega) hf
        obtain ⟨dm, da, _, dO, dc⟩ := display_upd_frame
          { s with OCR2B := o, clk_slo := c, temp16 := t16 }
        refine ⟨_, hrun, ?_, ?_, ?_, ?_, ?_, ?_⟩
        · intro h; omega
        · intro _ _; rw [dm]; exact hm
        · intro _ h; exact absurd hm h
        · intro h; omega
        · rw [da]; show s.dat_ava ≤ 1; omega
        · intro _ h; exact absurd (Or.inr (Or.inr (Or.inr hm))) (hnd h)
    · -- one byte pending in a mode that expects none
      obtain ⟨dm, da, _, dO, dc⟩ := display_upd_frame { s with mode := AUTO, dat_ava := 0 }
      refine ⟨_, main_loop_stray fuel s h1 hdm, ?_, ?_, ?_, ?_, ?_, ?_⟩
      · intro _; exact ⟨dm, da⟩
      · intro _ h; exact absurd (Or.inr (Or.inr (Or.inr h))) hdm
      · intro _ _; exact dm
      · intro h; omega
      · rw [da]; exact Nat.zero_le 1
      · intro _ _; exact ⟨da, dO, dc⟩
  · -- overflow
    obtain ⟨dm, da, _, dO, dc⟩ := display_upd_frame { s with mode := AUTO, dat_ava := 0 }
    refine ⟨_, main_loop_overflow fuel s (by omega), ?_, ?_, ?_, ?_, ?_, ?_⟩
    · intro _; exact ⟨dm, da⟩
    · intro h; omega
    · intro h; omega
    · intro h; omega
    · rw [da]; exact Nat.zero_le 1
    · intro _ _; exact ⟨da, dO, dc⟩

/-- Claim C16 at one byte pending in Help mode. -/
theorem main_loop_outcome_witness :
    ∃ t, main_loop 5 (pending_state HELP 7) = some t ∧
      (2 ≤ (pending_state HELP 7).dat_ava → t.mode = AUTO ∧ t.dat_ava = 0) ∧
      ((pending_state HELP 7).dat_ava = 1 → (pending_state HELP 7).mode = MANUAL →
        t.mode = MANUAL) ∧
      ((pending_state HELP 7).dat_ava = 1 → (pending_state HELP 7).mode ≠ MANUAL →
        t.mode = AUTO) ∧
      ((pending_state HELP 7).dat_ava = 0 → t.mode = (pending_state HELP 7).mode) ∧
      t.dat_ava ≤ 1 ∧
      (1 ≤ (pending_state HELP 7).dat_ava →
        (pending_state HELP 7).mode = AUTO ∨ (pending_state HELP 7).mode = SETUP ∨
          (pending_state HELP 7).mode = HELP →
        t.dat_ava = 0 ∧ t.OCR2B = (pending_state HELP 7).OCR2B ∧
          same_config (pending_state HELP 7) t) :=
  main_loop_outcome 5 (pending_state HELP 7) (by decide) (by decide)

/-! ## The modes that can be reached from boot -/

/-- From Auto, Manual or Help the serial-receive handler leaves Auto, Manual
or Help, and it does not touch the slow-tick counter. -/
theorem rx_keeps_reachable (b : Nat) (s : State) (hm : reachable_mode s.mode) :
    reachable_mode (USART_RX_vect b s).mode ∧ (USART_RX_vect b s).clk_slo = s.clk_slo := by
  unfold reachable_mode at hm ⊢
  rcases hm with hm | hm | hm
  · by_cases ha : b = 97
    · subst ha; simp [USART_RX_vect, hm, AUTO, MANUAL, SETUP, MIN_S, STU_S, STU_D, HELP]
    by_cases hb : b = 109
    · subst hb; simp [USART_RX_vect, hm, AUTO, MANUAL, SETUP, MIN_S, STU_S, STU_D, HELP]
    by_cases hc : b = 115
    · subst hc; simp [USART_RX_vect, hm, AUTO, MANUAL, SETUP, MIN_S, STU_S, STU_D, HELP]
    by_cases hd : b = 104
    · subst hd; simp [USART_RX_vect, hm, AUTO, MANUAL, SETUP, MIN_S, STU_S, STU_D, HELP]
    simp [USART_RX_vect, hm, AUTO, MANUAL, SETUP, MIN_S, STU_S, STU_D, HELP, ha, hb, hc, hd]
  · rw [rx_in_data_mode b s (Or.inr (Or.inr (Or.inr hm)))]
    exact ⟨Or.inr (Or.inl hm), rfl⟩
  · by_cases ha : b = 97
    · subst ha; simp [USART_RX_vect, hm, AUTO, MANUAL, SETUP, MIN_S, STU_S, STU_D, HELP]
    by_cases hb : b = 109
    · subst hb; simp [USART_RX_vect, hm, AUTO, MANUAL, SETUP, MIN_S, STU_S, STU_D, HELP]
    by_cases hc : b = 115
    · subst hc; simp [USART_RX_vect, hm, AUTO, MANUAL, SETUP, MIN_S, STU_S, STU_D, HELP]
    by_cases hd : b = 104
    · subst hd; simp [USART_RX_vect, hm, AUTO, MANUAL, SETUP, MIN_S, STU_S, STU_D, HELP]
    simp [USART_RX_vect, hm, AUTO, MANUAL, SETUP, MIN_S, STU_S, STU_D, HELP, ha, hb, hc, hd]

/-- The display routine does not touch the slow-tick counter. -/
theorem display_upd_clk (s : State) : (display_upd s).clk_slo = s.clk_slo := by
  simp [display_upd]

/-- From Auto, Manual or Help a main-loop iteration returns (once the fuel
covers `Stu_Dur` ticks) in Auto, Manual or Help, with the configuration and
the EEPROM unchanged. -/
theorem main_loop_keeps_reachable (fuel : Nat) (s : State) (hm : reachable_mode s.mode)
    (hc : s.clk_slo < 65536) (hd : s.Stu_Dur < 65536) (hf : s.Stu_Dur ≤ fuel) :
    ∃ t, main_loop fuel s = some t ∧ reachable_mode t.mode ∧ t.clk_slo < 65536 ∧
      same_config s t := by
  rcases Nat.lt_trichotomy s.dat_ava 1 with h0 | h1 | h2
  · obtain ⟨dm, _, _, _, dc⟩ := display_upd_frame s
    refine ⟨_, main_loop_idle fuel s (by omega), ?_, ?_, dc⟩
    · rw [dm]; exact hm
    · rw [display_upd_clk]; exact hc
  · by_cases hman : s.mode = MANUAL
    · obtain ⟨o, c, t16, hrun, hlt⟩ := main_loop_manual fuel s h1 hman hc hd hf
      obtain ⟨dm, _, _, _, dc⟩ := display_upd_frame
        { s with OCR2B := o, clk_slo := c, temp16 := t16 }
      refine ⟨_, hrun, ?_, ?_, dc⟩
      · rw [dm]; exact hm
      · rw [display_upd_clk]; exact hlt
    · have hnd : ¬ data_mode s.mode := by
        unfold reachable_mode at hm
        unfold data_mode
        simp only [AUTO, HELP, MIN_S, STU_S, STU_D, MANUAL] at hm hman ⊢
        omega
      obtain ⟨dm, _, _, _, dc⟩ := display_upd_frame { s with mode := AUTO, dat_ava := 0 }
      refine ⟨_, main_loop_stray fuel s h1 hnd, ?_, ?_, dc⟩
      · rw [dm]; exact Or.inl rfl
      · rw [display_upd_clk]; exact hc
  · obtain ⟨dm, _, _, _, dc⟩ := display_upd_frame { s with mode := AUTO, dat_ava := 0 }
    refine ⟨_, main_loop_overflow fuel s (by omega), ?_, ?_, dc⟩
    · rw [dm]; exact Or.inl rfl
    · rw [display_upd_clk]; exact hc

/-- Any script run from a state in Auto, Manual or Help returns in Auto, Manual
or Help with the configuration and the EEPROM unchanged. -/
theorem run_keeps_reachable (fuel : Nat) (es : List Event) : ∀ s : State,
    reachable_mode s.mode → s.clk_slo < 65536 → s.Stu_Dur < 65536 → s.Stu_Dur ≤ fuel →
    ∃ t, run fuel es s = some t ∧ reachable_mode t.mode ∧ same_config s t := by
  induction es with
  | nil =>
    intro s hm _ _ _
    exact ⟨s, rfl, hm, rfl, rfl, rfl, rfl⟩
  | cons e es ih =>
    intro s hm hc hd hf
    have hstep : ∃ t, e.apply fuel s = some t ∧ reachable_mode t.mode ∧
        t.clk_slo < 65536 ∧ same_config s t := by
      cases e with
      | rx b =>
        obtain ⟨k1, k2⟩ := rx_keeps_reachable b s hm
        exact ⟨_, rfl, k1, by rw [k2]; exact hc, (rx_frame b s).2⟩
      | loop => exact main_loop_keeps_reachable fuel s hm hc hd hf
      | tick =>
        exact ⟨_, rfl, hm, Nat.mod_lt _ (by decide), rfl, rfl, rfl, rfl⟩
    obtain ⟨t, ht, tm, tc, c1, c2, c3, c4⟩ := hstep
    obtain ⟨u, hu, um, d1, d2, d3, d4⟩ :=
      ih t tm tc (by rw [c3]; exact hd) (by rw [c3]; exact hf)
    refine ⟨u, ?_, um, d1.trans c1, d2.trans c2, d3.trans c3, d4.trans c4⟩
    simp only [run, ht]
    exact hu

/-- Claim C20: from a state in mode Auto with nothing pending, every script
of received bytes, main-loop iterations and slow ticks returns (once the fuel
covers `Stu_Dur` ticks), and the mode it ends in is Auto, Manual or Help,
never SETUP, MIN_S, STU_S or STU_D; `Min_Spd`, `Stu_Spd`, `Stu_Dur` and the
EEPROM are what they were at the start.  A prefix of a script is a script, so
this holds after every step. -/
theorem setup_modes_unreachable (fuel : Nat) (es : List Event) (s : State) (hw : s.wf)
    (hf : s.Stu_Dur ≤ fuel) (hm : s.mode = AUTO) (hp : s.dat_ava = 0) :
    ∃ t, run fuel es s = some t ∧
      (t.mode = AUTO ∨ t.mode = MANUAL ∨ t.mode = HELP) ∧
      t.mode ≠ SETUP ∧ t.mode ≠ MIN_S ∧ t.mode ≠ STU_S ∧ t.mode ≠ STU_D ∧
      t.Min_Spd = s.Min_Spd ∧ t.Stu_Spd = s.Stu_Spd ∧ t.Stu_Dur = s.Stu_Dur ∧
      t.eeprom = s.eeprom := by
  obtain ⟨_, _, _, _, _, _, _, _, _, _, hd, hc, _, _⟩ := hw
  obtain ⟨t, ht, tm, c1, c2, c3, c4⟩ :=
    run_keeps_reachable fuel es s (Or.inl hm) hc (by omega) hf
  have tm2 := tm
  unfold reachable_mode at tm2
  refine ⟨t, ht, tm, ?_, ?_, ?_, ?_, c1, c2, c3, c4⟩ <;>
    (simp only [AUTO, MANUAL, HELP, SETUP, MIN_S, STU_S, STU_D] at tm2 ⊢; omega)

/-- Claim C20 at the state after `io_init()` with configuration 20, 100, 5
and the script `s`, `1`, 30 with a main-loop iteration after each byte. -/
theorem setup_modes_unreachable_witness :
    ∃ t, run 5 [.rx 115, .loop, .rx 49, .loop, .rx 30, .loop] (stopped_fan 20 100 5) = some t ∧
      (t.mode = AUTO ∨ t.mode = MANUAL ∨ t.mode = HELP) ∧
      t.mode ≠ SETUP ∧ t.mode ≠ MIN_S ∧ t.mode ≠ STU_S ∧ t.mode ≠ STU_D ∧
      t.Min_Spd = (stopped_fan 20 100 5).Min_Spd ∧
      t.Stu_Spd = (stopped_fan 20 100 5).Stu_Spd ∧
      t.Stu_Dur = (stopped_fan 20 100 5).Stu_Dur ∧
      t.eeprom = (stopped_fan 20 100 5).eeprom :=
  setup_modes_unreachable 5 [.rx 115, .loop, .rx 49, .loop, .rx 30, .loop]
    (stopped_fan 20 100 5) (by decide) (by decide) rfl rfl

end Ventireg
